import Mathlib

/-!
Verification of the response reconciliation / polling layer of the
pddl-planning-service-client library.

The definitions below are a shallow embedding of the TypeScript sources:
  * PlannerService (convertPlanSteps / parsePlanSteps, plan orchestration),
  * PlannerAsyncService (toPlanTimeScale, processServerResponseBody and the
    lastPlanPrinted cursor),
  * PlannerSyncService (processServerResponseBody),
  * PlannerPackagePreviewService (processServerResponseBody / checkForResults),
  * httpUtils (postJson / getJson response classification).

JavaScript numbers that carry plan times are embedded as rationals, side
effects on the caller (handleOutput / handlePlan calls) as explicit event
lists, and fallible code as explicit outcome types distinguishing promise
resolution, promise rejection and thrown exceptions.  String scanning is
done on character lists so that all definitions evaluate by kernel
reduction.
-/

/-- Boolean prefix test on character lists (structural stand-in for the
string prefix tests used below). -/
def charsStartWith : List Char → List Char → Bool
  | [], _ => true
  | _ :: _, [] => false
  | p :: ps, c :: cs => p = c && charsStartWith ps cs

/-- Tests whether the string `s` starts with `p` (JavaScript
`s.startsWith(p)` / the regex test `/^p/.test(s)`). -/
def strStartsWith (s p : String) : Bool := charsStartWith p.data s.data

/-- Tests whether the string `s` ends with `p`. -/
def strEndsWith (s p : String) : Bool := charsStartWith p.data.reverse s.data.reverse

/-- Boolean substring test on character lists, structural in the haystack. -/
def charsContains (pat : List Char) : List Char → Bool
  | [] => pat.isEmpty
  | c :: t => charsStartWith pat (c :: t) || charsContains pat t

/-- Tests whether `s` contains `pat` as a substring (JavaScript
`s.includes(pat)`). -/
def strContains (s pat : String) : Bool := charsContains pat.data s.data

/-- Lower-casing a string character by character (JavaScript
`s.toLowerCase()`, for the ASCII format names compared in parsePlan). -/
def strToLower (s : String) : String := String.mk (s.data.map Char.toLower)

/-- A plan step as constructed by `new PlanStep(time, fullActionName, isDurative,
duration, index)` in PlannerService.convertPlanSteps. -/
structure PlanStep where
  time : ℚ
  fullActionName : String
  isDurative : Bool
  duration : ℚ
  orderIndex : ℕ
deriving DecidableEq

/-- One entry of a JSON plan-step array (`JsonPlanStep` in PlannerService.ts):
an action name, an optional explicit time and an optional duration.  A JSON
`null` duration and an absent duration behave identically in the source
(`duration !== undefined && duration !== null`, and `??` treats both as
nullish), so both are embedded as `none`. -/
structure JsonPlanStep where
  name : String
  time : Option ℚ
  duration : Option ℚ
deriving DecidableEq

/-- Removes the first occurrence of the character `c`, which is what the
JavaScript `String.prototype.replace(c, '')` with a one-character string
pattern does. -/
def removeFirstChar : List Char → Char → List Char
  | [], _ => []
  | x :: xs, c => if x = c then xs else x :: removeFirstChar xs c

/-- The action-name cleanup `planStep.name.replace('(', '').replace(')', '')`
from PlannerService.convertPlanSteps: the first `(` and the first `)` are
removed. -/
def jsStripParens (s : String) : String :=
  String.mk (removeFirstChar (removeFirstChar s.data '(') ')')

/-- Follows the spec's words (for comparison with `jsStripParens`): the step's
name "with outer parentheses stripped", i.e. a leading `(` and a trailing `)`
are removed together when both are present, and any other name is unchanged. -/
def stripOuterParens (s : String) : String :=
  if strStartsWith s "(" && strEndsWith s ")" then String.mk s.data.dropLast.tail else s

/-- The body of the `for` loop of PlannerService.convertPlanSteps (and of the
identical parsePlanSteps in the older PlannerService revision) for the entry
at position `index`:
`time = planStep.time ?? (index + 1) * epsilon`,
`isDurative = duration !== undefined && duration !== null`,
`duration = duration ?? epsilon`. -/
def mkConvertedStep (epsilon : ℚ) (index : ℕ) (s : JsonPlanStep) : PlanStep :=
  { time := s.time.getD ((index + 1 : ℚ) * epsilon)
    fullActionName := jsStripParens s.name
    isDurative := s.duration.isSome
    duration := s.duration.getD epsilon
    orderIndex := index }

/-- PlannerService.convertPlanSteps: iterates the JSON steps by index, building
one `PlanStep` per entry; the returned list is the sequence of
`planParser.appendStep` calls in order (the trailing `onPlanFinished` call
then finalizes them into one plan). -/
def convertPlanSteps (steps : List JsonPlanStep) (epsilon : ℚ) : List PlanStep :=
  steps.enum.map (fun ip => mkConvertedStep epsilon ip.1 ip.2)

/-- PlannerAsyncService.toPlanTimeScale: the `switch` over the server-declared
plan time unit.  The unit is a string in the source (`PlanTimeUnit` is a union
of string literals), and the `default` case together with `case "SECOND"`
returns 1. -/
def toPlanTimeScale (planTimeUnit : String) : ℚ :=
  if planTimeUnit = "MINUTE" then 60
  else if planTimeUnit = "MILLISECOND" then 1 / 1000
  else if planTimeUnit = "HOUR" then 60 * 60
  else if planTimeUnit = "DAY" then 24 * 60 * 60
  else if planTimeUnit = "WEEK" then 7 * 24 * 60 * 60
  else 1

/-- The constant `DEFAULT_PLAN_TIME_UNIT_HOUR = "HOUR"` of
PlannerAsyncService.ts. -/
def DEFAULT_PLAN_TIME_UNIT_HOUR : String := "HOUR"

/-- PlannerAsyncService.createRequestBody line 43: the configured plan time
scale `toPlanTimeScale(configuration.planTimeUnit ?? DEFAULT_PLAN_TIME_UNIT_HOUR)`. -/
def asyncConfiguredPlanTimeScale (planTimeUnit : Option String) : ℚ :=
  toPlanTimeScale (planTimeUnit.getD DEFAULT_PLAN_TIME_UNIT_HOUR)

/-! ## Synchronous reconciler (PlannerSyncService, `/solve`) -/

/-- JavaScript truthiness of an optional string field: absent, and the empty
string, are falsy. -/
def truthyStr : Option String → Bool
  | none => false
  | some s => !s.data.isEmpty

/-- Caller-visible side effects of the sync reconciler: `handleOutput` and
`handlePlan` calls, in order. -/
inductive SEvent
  | out (text : String)
  | planEmitted (steps : List PlanStep)
deriving DecidableEq

/-- How one call of the sync reconciler ends: `resolve(plans)`,
`reject(new Error(msg))`, or a thrown TypeError from accessing a field of
`undefined`. -/
inductive SOutcome
  | resolved (plans : List (List PlanStep))
  | rejected (msg : String)
  | thrown (msg : String)
deriving DecidableEq

/-- The `result` object of a `/solve` response:
`{ output?, error?, plan? }`. -/
structure SyncResult where
  output : Option String
  error : Option String
  plan : Option (List JsonPlanStep)
deriving DecidableEq

/-- A `/solve` response body `{ status?, result? }`. -/
structure SyncResponse where
  status : Option String
  result : Option SyncResult
deriving DecidableEq

/-- The TypeError raised by JavaScript when a property of `undefined` is
read, as happens in the source when `result` (or `result.plan`) is absent. -/
def undefinedFieldError (fld : String) : String :=
  "TypeError: Cannot read properties of undefined (reading " ++ fld ++ ")"

/-- Approximate rendering of the `JSON.stringify(result)` interpolated into
the sync reconciler's rejection message; no theorem below depends on this
diagnostic text, and the optional `plan` array rendering is elided. -/
def syncResultStringify (r : SyncResult) : String :=
  "\x7b" ++
    (match r.output with | none => "" | some o => "\"output\":\"" ++ o ++ "\",") ++
    (match r.error with | none => "" | some e => "\"error\":\"" ++ e ++ "\"") ++
  "\x7d"

/-- Modelled from the spec: the external plan parser (PddlPlannerOutputParser
of pddl-workspace, an out-of-scope collaborator driven through appendStep /
onPlanFinished / getPlans) finalizes each appended step buffer into one
completed plan; finishing with no appended steps yields no plan.  This
realizes `planParser.getPlans()` after `parsePlanSteps(result.plan, ...)`. -/
def plansAfterParsePlanSteps (steps : List JsonPlanStep) (epsilon : ℚ) :
    List (List PlanStep) :=
  let s := convertPlanSteps steps epsilon
  if s.isEmpty then [] else [s]

/-- PlannerSyncService.processServerResponseBody: classification of a single
`/solve` response.  `epsilon` is `planParser.options.epsilon`. -/
def syncProcess (epsilon : ℚ) (b : SyncResponse) : List SEvent × SOutcome :=
  if b.status = some "error" then
    match b.result with
    | none => ([], .thrown (undefinedFieldError "output"))
    | some result =>
      let ev := if truthyStr result.output then [SEvent.out (result.output.getD "")] else []
      if truthyStr result.error then
        (ev ++ [SEvent.out (result.error.getD "")], .resolved [])
      else
        (ev, .rejected ("An error occurred while solving the planning problem: " ++
          syncResultStringify result))
  else if b.status ≠ some "ok" then
    ([], .rejected ("Planner service failed with status " ++ b.status.getD "undefined" ++ "."))
  else
    match b.result with
    | none => ([], .thrown (undefinedFieldError "output"))
    | some result =>
      let ev := if truthyStr result.output then [SEvent.out (result.output.getD "")] else []
      match result.plan with
      | none => (ev, .thrown (undefinedFieldError "length"))
      | some steps =>
        let plans := plansAfterParsePlanSteps steps epsilon
        match plans with
        | [] => (ev ++ [SEvent.out "No plan found."], .resolved [])
        | p :: _ => (ev ++ [SEvent.planEmitted p], .resolved plans)

/-- True exactly when the sync reconciler raised (rejected or threw) rather
than resolving. -/
def isErrorRaised : SOutcome → Bool
  | .resolved _ => false
  | .rejected _ => true
  | .thrown _ => true

/-- True exactly when the sync reconciler resolved with a plan list. -/
def isResolvedOutcome : SOutcome → Bool
  | .resolved _ => true
  | _ => false

/-! ## Asynchronous reconciler (PlannerAsyncService, `/request`) -/

/-- A completed plan as held by the external parser's plan list. -/
abbrev Plan := List PlanStep

/-- One entry of the `plans` array of a `/request` response
(`AsyncResponsePlan` in PlannerAsyncService.ts). -/
structure AsyncResponsePlan where
  makespan : ℚ
  metricValue : ℚ
  statesEvaluated : ℕ
  timeElapsed : String
  timeUnit : Option String
  format : Option String
  content : String
deriving DecidableEq

/-- A `/request` response body: nested status object, plans array, and the
cumulative `output` log. -/
structure AsyncResponse where
  status : String
  reason : Option String
  errorMessage : String
  plans : List AsyncResponsePlan
  output : String
deriving DecidableEq

/-- The format dispatch of PlannerAsyncService.parsePlan: formats json, tasks
and xplan are handled; any other format (including an absent one, which
JavaScript interpolates as "undefined") throws
`Unsupported plan format: <format>`.  Successful decoding of well-formed
content is represented by the parser plan list passed to `asyncProcess`. -/
def planFormatError (p : AsyncResponsePlan) : Option String :=
  match p.format with
  | some f =>
    let fl := strToLower f
    if fl = "json" ∨ fl = "tasks" ∨ fl = "xplan" then none
    else some ("Unsupported plan format: " ++ f)
  | none => some ("Unsupported plan format: undefined")

/-- Caller-visible side effects of the async reconciler; a `handlePlan` call
is recorded together with the parser plan-list index it was read from. -/
inductive AEvent
  | out (text : String)
  | planEmitted (index : ℕ) (p : Plan)
deriving DecidableEq

/-- How one async processServerResponseBody call ends: a returned plan list
or a thrown error. -/
inductive AOutcome
  | plans (ps : List Plan)
  | err (msg : String)
deriving DecidableEq

/-- The emission loop of PlannerAsyncService.processServerResponseBody:
`for (let index = this.lastPlanPrinted + 1; index < plans.length; index++) {
callbacks.handlePlan(plans[index]); this.lastPlanPrinted = index; }`.
Returns the `handlePlan` emissions (index, plan) in order together with the
final value of lastPlanPrinted. -/
def printPlansFrom (plans : List Plan) (index : ℕ) (cursor : ℤ) :
    List (ℕ × Plan) × ℤ :=
  if h : index < plans.length then
    let rest := printPlansFrom plans (index + 1) index
    ((index, plans.get ⟨index, h⟩) :: rest.1, rest.2)
  else ([], cursor)
termination_by plans.length - index

/-- PlannerAsyncService.processServerResponseBody for one response.  Since
lastPlanPrinted starts at -1 and is only ever assigned a loop index, the
loop's starting counter `lastPlanPrinted + 1` is a nonnegative index, taken
here with `Int.toNat`.  `parserPlans` is `planParser.getPlans()` after the
awaited `parsePlan` calls: the parser is an external collaborator, so the
plan list it has accumulated is a parameter, while a `parsePlan` failure on
an unsupported plan format (which makes `Promise.all` reject) is modelled by
`planFormatError`. -/
def asyncProcess (timeout : ℤ) (lastPlanPrinted : ℤ) (r : AsyncResponse)
    (parserPlans : List Plan) : List AEvent × AOutcome × ℤ :=
  let ev0 : List AEvent := [.out r.output]
  if r.status = "STOPPED" ∨ r.status = "SEARCHING_BETTER_PLAN" then
    if 0 < r.plans.length then
      match r.plans.findSome? planFormatError with
      | some msg => (ev0, .err msg, lastPlanPrinted)
      | none =>
        let pr := printPlansFrom parserPlans (lastPlanPrinted + 1).toNat lastPlanPrinted
        let ev1 := pr.1.map (fun ip => AEvent.planEmitted ip.1 ip.2)
        let ev2 := if parserPlans.length = 0 then [AEvent.out "No plan found."] else []
        (ev0 ++ ev1 ++ ev2, .plans parserPlans, pr.2)
    else (ev0, .plans [], lastPlanPrinted)
  else if r.status = "FAILED" then (ev0, .err r.errorMessage, lastPlanPrinted)
  else if r.status = "NOT_INITIALIZED" ∨ r.status = "INITIATING" ∨
      r.status = "SEARCHING_INITIAL_PLAN" then
    (ev0, .err ("After timeout " ++ toString timeout ++ " the status is " ++ r.status),
      lastPlanPrinted)
  else
    (ev0, .err ("Planner service returned unexpected status: " ++ r.status ++ "."),
      lastPlanPrinted)

/-- The initializer `private lastPlanPrinted = -1` of PlannerAsyncService. -/
def asyncInitialCursor : ℤ := -1

/-- One `plan()` invocation of the generic PlannerService base class as
specialized by PlannerAsyncService: an announcement is emitted via
handleOutput, the POST is issued, and the decoded response body is handed to
processServerResponseBody.  `plan()` never touches lastPlanPrinted, so the
cursor is threaded through unchanged around the transport; a transport
failure (postJson rejecting) propagates without reaching
processServerResponseBody. -/
def asyncPlanModel (announce : String) (timeout : ℤ) (cursor : ℤ)
    (transport : Except String AsyncResponse) (parserPlans : List Plan) :
    List AEvent × AOutcome × ℤ :=
  match transport with
  | .error m => ([.out announce], .err m, cursor)
  | .ok r =>
    let pr := asyncProcess timeout cursor r parserPlans
    (.out announce :: pr.1, pr.2.1, pr.2.2)

/-- The indices of the `handlePlan` emissions of an async event trace, in
emission order. -/
def emittedIndices (evs : List AEvent) : List ℕ :=
  evs.filterMap (fun e => match e with | .planEmitted i _ => some i | _ => none)

/-- True exactly when the async reconciler threw an error. -/
def isErrOutcome : AOutcome → Bool
  | .plans _ => false
  | .err _ => true

/-! ## Packaged/preview reconciler (PlannerPackagePreviewService) -/

/-- The `output` field of a packaged result: declared as a string-to-string
map, but at least one legacy backend populates it with a plain string, which
the source guards with a `typeof` test. -/
inductive OutputVal
  | str (s : String)
  | map (entries : List (String × String))
deriving DecidableEq

/-- A structured packaged result `{ output?, error?, stderr?, stdout? }`. -/
structure PackResultObj where
  output : Option OutputVal
  error : Option String
  stderr : Option String
  stdout : Option String
deriving DecidableEq

/-- The `result` field of a packaged response: either a callback URL string
or a structured result object. -/
inductive PackResult
  | url (s : String)
  | obj (r : PackResultObj)
deriving DecidableEq

/-- A packaged response body `{ status?, result?, Error? }`; `extra` holds the
remaining top-level keys with string content, as present in the legacy
bare-plan shape whose keys are scanned for the substring "plan". -/
structure PackagedResponse where
  status : Option String
  result : Option PackResult
  errorField : Option String
  extra : List (String × String)
deriving DecidableEq

/-- The local `isEmpty(obj)` helper of the source:
`!obj || Object.keys(obj).length === 0` (an empty string has no keys, a
nonempty string has one key per character). -/
def jsIsEmpty : Option OutputVal → Bool
  | none => true
  | some (.str s) => s.data.isEmpty
  | some (.map m) => m.isEmpty

/-- JavaScript truthiness of the whole `result` field: an empty callback URL
string is falsy, any structured object is truthy. -/
def resultTruthy : Option PackResult → Bool
  | none => false
  | some (.url s) => !s.data.isEmpty
  | some (.obj _) => true

/-- True when `result` is present and a string (`typeof result === "string"`
after the `result !== undefined` test). -/
def isUrlResult : Option PackResult → Bool
  | some (.url _) => true
  | _ => false

/-- True when `result` is present and not a string. -/
def isObjResult : Option PackResult → Bool
  | some (.obj _) => true
  | _ => false

/-- Caller-visible side effects of the packaged reconciler; plans are
represented by their finalized buffer text (see `packProcessStep`). -/
inductive PackEvent
  | out (text : String)
  | planEmitted (p : String)
deriving DecidableEq

/-- How one packaged processServerResponseBody call ends: a returned plan
list, a thrown error, or a re-poll directive `poll delayMs url` standing for
"sleep delayMs, then GET url and recurse" (the PENDING branch sleeps 500 ms;
the callback-URL redirect re-polls immediately). -/
inductive PackStepRes
  | ret (plans : List String)
  | err (msg : String)
  | poll (delayMs : ℕ) (url : String)
deriving DecidableEq

/-- Takes the characters of a URL up to (excluding) the next `/`. -/
def charsTakeUntilSlash : List Char → List Char
  | [] => []
  | c :: t => if c = '/' then [] else c :: charsTakeUntilSlash t

/-- The scheme-and-host prefix of a URL: everything up to the first `/` after
the `//` of the scheme separator. -/
def charsOrigin : List Char → List Char
  | '/' :: '/' :: t => '/' :: '/' :: charsTakeUntilSlash t
  | c :: t => c :: charsOrigin t
  | [] => []

/-- The origin (scheme + host) of a URL string. -/
def urlOrigin (base : String) : String := String.mk (charsOrigin base.data)

/-- Modelled from the spec: WHATWG `new URL(input, base)` resolution (the
Node `url` module, an external capability) as used for packaged callback
URLs, restricted to the shapes the protocol uses: an absolute http(s) input
ignores the base, and a root-relative input starting with `/` replaces the
base URL's path; other relative forms are not exercised by the claims and
are left at the base URL. -/
def resolveUrl (input base : String) : String :=
  if strStartsWith input "http://" || strStartsWith input "https://" then input
  else if strStartsWith input "/" then urlOrigin base ++ input
  else base

/-- The output/stdout/stderr emissions performed before the status dispatch
(source lines 47-52): only for a present, structured `result`; `output` is
echoed only when it is a nonempty string
(`!isEmpty(res.output) && typeof (res.output) === "string"`). -/
def packPreEvents : Option PackResult → List PackEvent
  | some (.obj r) =>
    (match r.output with
     | some (.str s) => if s.data.isEmpty then [] else [.out (s ++ "\n")]
     | _ => []) ++
    (if truthyStr r.stdout then [.out (r.stdout.getD "" ++ "\n")] else []) ++
    (if truthyStr r.stderr then [.out ("Error: " ++ r.stderr.getD "" ++ "\n")] else [])
  | _ => []

/-- JavaScript truthiness of `res.output` (`if (res.output)`): any map object
is truthy (even an empty one), a string is truthy when nonempty. -/
def outputTruthy : Option OutputVal → Bool
  | none => false
  | some (.str s) => !s.data.isEmpty
  | some (.map _) => true

/-- The buffers appended by `Object.keys(res.output).forEach(...)`: one per
map entry, or one per character when a legacy backend put a plain string
there (string keys are character indices). -/
def outputBuffers : OutputVal → List String
  | .str s => s.data.map (fun c => String.mk [c])
  | .map m => m.map (fun kv => kv.2)

/-- Concatenates strings with commas (for the approximate JSON rendering
below). -/
def joinComma : List String → String
  | [] => ""
  | [x] => x
  | x :: xs => x ++ "," ++ joinComma xs

/-- Approximate rendering of `JSON.stringify(res.output)` for the
"Planner output: ..." diagnostic; no theorem depends on this text. -/
def packOutputStringify : Option OutputVal → String
  | none => "undefined"
  | some (.str s) => "\"" ++ s ++ "\""
  | some (.map m) =>
    "\x7b" ++ joinComma (m.map (fun kv => "\"" ++ kv.1 ++ "\":\"" ++ kv.2 ++ "\"")) ++ "\x7d"

/-- PlannerPackagePreviewService.processServerResponseBody for one response.
The external plan parser is modelled (from the spec's parser interface) as
yielding one completed plan per finalized `appendBuffer` text, so plans are
represented by their raw buffer text. -/
def packProcessStep (origUrl : String) (b : PackagedResponse) :
    List PackEvent × PackStepRes :=
  let ev0 := packPreEvents b.result
  if b.status = some "PENDING" then
    (ev0, .poll 500 origUrl)
  else if b.status = some "error" ∨ truthyStr b.errorField then
    match b.result with
    | some (.obj r) =>
      if truthyStr r.error then (ev0 ++ [.out (r.error.getD "")], .ret [])
      else (ev0, .ret [])
    | some (.url s) =>
      if s.data.isEmpty then
        -- an empty string is falsy, so `if (result)` falls through
        if truthyStr b.errorField then (ev0, .err (b.errorField.getD ""))
        else (ev0, .err "An error occurred while solving the planning problem: \"\"")
      else (ev0, .ret [])
    | none =>
      if truthyStr b.errorField then (ev0, .err (b.errorField.getD ""))
      else (ev0, .err "An error occurred while solving the planning problem: undefined")
  else if b.status = none then
    match b.result with
    | some (.url s) => (ev0, .poll 0 (resolveUrl s origUrl))
    | some (.obj _) => (ev0, .err "Element 'result should be a /check... url.")
    | none =>
      if b.extra.any (fun kv => strContains kv.1 "plan") then
        let ev1 :=
          (if truthyStr (b.extra.lookup "stdout") then
            [PackEvent.out ((b.extra.lookup "stdout").getD "" ++ "\n")] else []) ++
          (if truthyStr (b.extra.lookup "stderr") then
            [PackEvent.out ("Error: " ++ (b.extra.lookup "stderr").getD "" ++ "\n")] else [])
        let plans := (b.extra.filter (fun kv => strContains kv.1 "plan")).map (fun kv => kv.2)
        match plans with
        | [] => (ev0 ++ ev1 ++ [.out "No plan found in the planner output.\n"], .ret [])
        | p :: ps => (ev0 ++ ev1 ++ [.planEmitted p], .ret (p :: ps))
      else (ev0, .err "Missing 'result' or '*plan*' elements.")
  else if b.status = some "ok" ∧ resultTruthy b.result then
    match b.result with
    | some (.obj r) =>
      let buffers := match r.output with
        | some o => if outputTruthy r.output then outputBuffers o else []
        | none => []
      match buffers with
      | [] => (ev0 ++ [.out ("Planner output: " ++ packOutputStringify r.output),
          .out "No plan found in the planner output.\n"], .ret [])
      | p :: ps => (ev0 ++ [.planEmitted p], .ret (p :: ps))
    | some (.url _) =>
      -- a nonempty string result: `res.output` is undefined, nothing is appended
      (ev0 ++ [.out "Planner output: undefined", .out "No plan found in the planner output.\n"],
        .ret [])
    | none =>
      -- unreachable: a missing result is falsy and the guard required it truthy
      (ev0, .err ("Planner service failed with status " ++ b.status.getD "undefined" ++ "."))
  else
    (ev0, .err ("Planner service failed with status " ++ b.status.getD "undefined" ++ "."))

/-- PlannerPackagePreviewService.checkForResults / processServerResponseBody
recursion, driven by the list of successive poll responses: each `.poll`
directive consumes the next response, re-entering the same logic with the
polled URL as the new original URL (exactly as checkForResults passes the
polled URL on); a terminal step ends the run.  `none` means the response
list was exhausted while still polling. -/
def packDriveList (origUrl : String) : List PackagedResponse → List PackEvent × Option PackStepRes
  | [] => ([], none)
  | b :: rest =>
    match packProcessStep origUrl b with
    | (ev, PackStepRes.poll _ u) =>
      let r := packDriveList u rest
      (ev ++ r.1, r.2)
    | (ev, res) => (ev, some res)

/-- A response on which the packaged reconciler polls again instead of
terminating: a PENDING status, or the no-status callback-URL redirect (not
intercepted by the top-level `Error` branch). -/
def nonTerminal (b : PackagedResponse) : Bool :=
  b.status == some "PENDING" ||
    (b.status == none && !truthyStr b.errorField && isUrlResult b.result)

/-- True when a packaged event trace contains a `handlePlan` call. -/
def hasPackPlanEmitted (evs : List PackEvent) : Bool :=
  evs.any (fun e => match e with | .planEmitted _ => true | _ => false)

/-! ## HTTP response classification (httpUtils) -/

/-- The response header fields inspected by httpUtils. -/
structure HttpResponseMeta where
  statusCode : ℕ
  statusMessage : String
  contentType : Option String
deriving DecidableEq

/-- Whether a content-type header passes
`contentType && /^application\/json/.test(contentType)`. -/
def contentTypeIsJson : Option String → Bool
  | none => false
  | some ct => strStartsWith ct "application/json"

/-- httpUtils.postJson response classification (lines 79-102): the rejection
message produced for a response, or `none` when the body is accepted for
parsing.  `fromName` is `options.serviceFriendlyName ?? url`. -/
def postJsonClassify (isAuthenticated json : Bool) (fromName url : String)
    (res : HttpResponseMeta) : Option String :=
  if 202 < res.statusCode then
    some (if isAuthenticated && res.statusCode == 400 then
        "Authentication failed. Please login or update tokens. (" ++ fromName ++ ")"
      else if isAuthenticated && res.statusCode == 401 then
        "Invalid token. Please update tokens. (" ++ fromName ++ ")"
      else
        fromName ++ " returned code " ++ toString res.statusCode ++ " " ++ res.statusMessage)
  else if json && !contentTypeIsJson res.contentType then
    some ("Invalid content-type.\n" ++ "Expected application/json but received " ++
      res.contentType.getD "undefined" ++ " from " ++ url)
  else none

/-- httpUtils.getJson response classification (lines 21-35): GET polls reject
on status 300 and above or a non-JSON content-type, with no authentication
remapping and no failure for codes 203-299. -/
def getJsonClassify (url : String) (res : HttpResponseMeta) : Option String :=
  if 300 ≤ res.statusCode then
    some ("Status code " ++ toString res.statusCode ++ ", " ++ res.statusMessage ++
      " from " ++ url)
  else if !contentTypeIsJson res.contentType then
    some ("Invalid content-type.\n" ++ "Expected application/json but received " ++
      res.contentType.getD "undefined" ++ " from " ++ url)
  else none

/-! ## Concrete responses used by the theorems below -/

/-- The successive assignments `this.lastPlanPrinted = index` along a list of
emitted indices, starting from an initial cursor. -/
def cursorFold (c : ℤ) (l : List ℕ) : ℤ := l.foldl (fun (_ : ℤ) (j : ℕ) => (j : ℤ)) c

/-- A well-formed JSON-format plan entry used by concrete instantiations. -/
def jsonPlanEntryEx : AsyncResponsePlan :=
  { makespan := 0, metricValue := 0, statesEvaluated := 0, timeElapsed := "0",
    timeUnit := none, format := some "JSON", content := "[]" }

/-- A concrete STOPPED response with one JSON plan entry. -/
def stoppedResponseEx : AsyncResponse :=
  { status := "STOPPED", reason := none, errorMessage := "", plans := [jsonPlanEntryEx],
    output := "planner output" }

/-- A plan entry with the unsupported format "text". -/
def textPlanEntryEx : AsyncResponsePlan :=
  { makespan := 0, metricValue := 0, statesEvaluated := 0, timeElapsed := "0",
    timeUnit := none, format := some "text", content := "0.0: (a)" }

/-- A STOPPED response carrying one unsupported-format plan entry. -/
def c3CexResponse : AsyncResponse :=
  { status := "STOPPED", reason := none, errorMessage := "", plans := [textPlanEntryEx],
    output := "" }

/-- A STOPPED response whose plans array holds a parseable JSON entry
followed by an unsupported-format entry. -/
def c1CexResponse : AsyncResponse :=
  { status := "STOPPED", reason := none, errorMessage := "",
    plans := [jsonPlanEntryEx, textPlanEntryEx], output := "log" }

/-- A sync result with output but no error field. -/
def outputOnlyResult : SyncResult := { output := some "planning", error := none, plan := none }

/-- A status "error" sync response whose result has no error field. -/
def c4CexResponse : SyncResponse := { status := some "error", result := some outputOnlyResult }

/-- The spec's "domain unsolvable" example result. -/
def domUnsolvableResult : SyncResult :=
  { output := none, error := some "domain unsolvable", plan := none }

/-- The spec's "domain unsolvable" example response. -/
def domUnsolvableResponse : SyncResponse :=
  { status := some "error", result := some domUnsolvableResult }

/-- An "ok" sync response missing the result field. -/
def okNoResultResponse : SyncResponse := { status := some "ok", result := none }

/-- A sync response with an unrecognized status. -/
def weirdResponse : SyncResponse := { status := some "weird", result := none }

/-- A PENDING packaged response whose result is an absolute callback URL. -/
def pendingUrlResponse : PackagedResponse :=
  { status := some "PENDING", result := some (.url "http://other/check"),
    errorField := none, extra := [] }

/-- A legacy bare-plan response carrying a truthy top-level Error field. -/
def c6CexResponse : PackagedResponse :=
  { status := none, result := none, errorField := some "Missing mandatory argument",
    extra := [("plan", "(a b)")] }

/-- A legacy bare-plan response with no status, result, or Error field. -/
def barePlanResponse : PackagedResponse :=
  { status := none, result := none, errorField := none,
    extra := [("plan", "(a b)"), ("stdout", "solved")] }

/-- True when an async event trace contains a `handlePlan` call. -/
def hasPlanEmittedA (evs : List AEvent) : Bool :=
  evs.any (fun e => match e with | .planEmitted _ _ => true | _ => false)

/-! ## Characterization of the async emission loop -/

theorem printPlansFrom_spec (plans : List Plan) (index : ℕ) (cursor : ℤ) :
    printPlansFrom plans index cursor =
      ((List.range' index (plans.length - index)).map (fun j => (j, plans.getD j [])),
       if index < plans.length then ((plans.length : ℤ) - 1) else cursor) := by
  generalize hn : plans.length - index = n
  induction n generalizing index cursor with
  | zero =>
    have h : ¬ index < plans.length := by omega
    unfold printPlansFrom
    simp [h, hn]
  | succ n ih =>
    have h : index < plans.length := by omega
    have h2 : plans.length - (index + 1) = n := by omega
    unfold printPlansFrom
    rw [dif_pos h]
    rw [ih (index + 1) (index : ℤ) h2]
    have hget : plans.get ⟨index, h⟩ = plans.getD index [] := by
      simp [List.getD_eq_getElem?_getD, List.getElem?_eq_getElem h]
    rw [← h2, List.range'_succ]
    simp only [List.map_cons, hget]
    congr 1
    by_cases h3 : index + 1 < plans.length
    · simp [h3, h]
    · have : index = plans.length - 1 := by omega
      simp only [if_neg h3, if_pos h]
      omega

theorem filter_range_eq_toNat_range (c : ℤ) (n : ℕ) :
    (List.range n).filter (fun (j : ℕ) => decide (c < (j : ℤ))) =
      List.range' (c + 1).toNat (n - (c + 1).toNat) := by
  induction n with
  | zero => simp
  | succ n ih =>
    rw [List.range_succ, List.filter_append, ih]
    by_cases h : c < (n : ℤ)
    · have hs : (c + 1).toNat ≤ n := by omega
      have h1 : n + 1 - (c + 1).toNat = (n - (c + 1).toNat) + 1 := by omega
      have h2 : (c + 1).toNat + (n - (c + 1).toNat) = n := by omega
      rw [h1, List.range'_concat]
      simp [h, Nat.one_mul, h2]
    · have h1 : n + 1 - (c + 1).toNat = 0 := by omega
      have h2 : n - (c + 1).toNat = 0 := by omega
      rw [h1, h2]
      simp [h]

theorem asyncProcess_loop (t c : ℤ) (r : AsyncResponse) (P : List Plan)
    (hs : r.status = "STOPPED" ∨ r.status = "SEARCHING_BETTER_PLAN")
    (hp : 0 < r.plans.length)
    (hf : r.plans.findSome? planFormatError = none) :
    asyncProcess t c r P =
      (AEvent.out r.output ::
        ((List.range' (c + 1).toNat (P.length - (c + 1).toNat)).map
          (fun j => AEvent.planEmitted j (P.getD j []))) ++
        (if P.length = 0 then [AEvent.out "No plan found."] else []),
       AOutcome.plans P,
       if (c + 1).toNat < P.length then ((P.length : ℤ) - 1) else c) := by
  unfold asyncProcess
  rw [if_pos hs, if_pos hp, hf, printPlansFrom_spec]
  simp [List.map_map, Function.comp]

theorem filterMap_planEmitted (f : ℕ → Plan) (l : List ℕ) :
    l.filterMap ((fun e => match e with | AEvent.planEmitted i _ => some i | _ => none) ∘
      (fun j => AEvent.planEmitted j (f j))) = l := by
  induction l with
  | nil => rfl
  | cons a l ih => simpa [Function.comp] using ih

theorem emittedIndices_loop (t c : ℤ) (r : AsyncResponse) (P : List Plan)
    (hs : r.status = "STOPPED" ∨ r.status = "SEARCHING_BETTER_PLAN")
    (hp : 0 < r.plans.length)
    (hf : r.plans.findSome? planFormatError = none) :
    emittedIndices (asyncProcess t c r P).1 =
      List.range' (c + 1).toNat (P.length - (c + 1).toNat) := by
  rw [asyncProcess_loop t c r P hs hp hf]
  by_cases h : P.length = 0 <;>
    simp [h, emittedIndices, List.filterMap_append, filterMap_planEmitted]

theorem cursorFold_range' (s k : ℕ) (c : ℤ) (hk : 0 < k) :
    cursorFold c (List.range' s k) = ((s + k - 1 : ℕ) : ℤ) := by
  induction k generalizing s c with
  | zero => omega
  | succ k ih =>
    rw [List.range'_succ]
    rcases Nat.eq_zero_or_pos k with h | h
    · subst h; simp [cursorFold]
    · have hstep : cursorFold c (s :: List.range' (s + 1) k) =
          cursorFold (s : ℤ) (List.range' (s + 1) k) := rfl
      rw [hstep, ih (s + 1) (s : ℤ) h]
      congr 1
      omega

theorem mem_planEmitted_loop (t c : ℤ) (r : AsyncResponse) (P : List Plan) (i : ℕ) (p : Plan)
    (hs : r.status = "STOPPED" ∨ r.status = "SEARCHING_BETTER_PLAN")
    (hp : 0 < r.plans.length)
    (hf : r.plans.findSome? planFormatError = none) :
    AEvent.planEmitted i p ∈ (asyncProcess t c r P).1 ↔
      c < (i : ℤ) ∧ i < P.length ∧ P.getD i [] = p := by
  rw [asyncProcess_loop t c r P hs hp hf]
  constructor
  · intro hmem
    rcases List.mem_cons.mp hmem with h | h
    · exact absurd h (by simp)
    rcases List.mem_append.mp h with h | h
    · rcases List.mem_map.mp h with ⟨j, hj, hje⟩
      rw [List.mem_range'_1] at hj
      obtain ⟨rfl, hc⟩ := AEvent.planEmitted.inj hje
      exact ⟨by omega, by omega, hc⟩
    · by_cases h0 : P.length = 0 <;> simp [h0] at h
  · rintro ⟨h1, h2, h3⟩
    apply List.mem_cons_of_mem
    apply List.mem_append_left
    apply List.mem_map.mpr
    refine ⟨i, ?_, by rw [h3]⟩
    rw [List.mem_range'_1]
    omega

theorem asyncOutcome_loop (t c : ℤ) (r : AsyncResponse) (P : List Plan)
    (hs : r.status = "STOPPED" ∨ r.status = "SEARCHING_BETTER_PLAN")
    (hp : 0 < r.plans.length)
    (hf : r.plans.findSome? planFormatError = none) :
    (asyncProcess t c r P).2.1 = AOutcome.plans P := by
  rw [asyncProcess_loop t c r P hs hp hf]

theorem asyncCursor_loop (t c : ℤ) (r : AsyncResponse) (P : List Plan)
    (hs : r.status = "STOPPED" ∨ r.status = "SEARCHING_BETTER_PLAN")
    (hp : 0 < r.plans.length)
    (hf : r.plans.findSome? planFormatError = none) :
    (asyncProcess t c r P).2.2 =
      if (c + 1).toNat < P.length then ((P.length : ℤ) - 1) else c := by
  rw [asyncProcess_loop t c r P hs hp hf]

/-- Counterexample to C1 as stated: a STOPPED response with a non-empty
plans array (a JSON entry followed by an unsupported "text" entry) and a
parser plan list holding one completed plan at index 0, above the cursor
-1, emits nothing via handlePlan: the parse failure makes the call raise
"Unsupported plan format: text" before the emission loop runs, so a
completed plan above the cursor is not emitted and the cursor stays -1. -/
theorem async_emission_C1_cex :
    (c1CexResponse.status = "STOPPED" ∨ c1CexResponse.status = "SEARCHING_BETTER_PLAN") ∧
    0 < c1CexResponse.plans.length ∧
    0 < ([([] : Plan)]).length ∧
    (-1 : ℤ) < ((0 : ℕ) : ℤ) ∧
    hasPlanEmittedA (asyncProcess 60 (-1) c1CexResponse [[]]).1 = false ∧
    emittedIndices (asyncProcess 60 (-1) c1CexResponse [[]]).1 = [] ∧
    (asyncProcess 60 (-1) c1CexResponse [[]]).2.1 =
      AOutcome.err "Unsupported plan format: text" ∧
    (asyncProcess 60 (-1) c1CexResponse [[]]).2.2 = -1 := by
  decide

/-- Claim C1 (amended): for an async response with status STOPPED or
SEARCHING_BETTER_PLAN and a non-empty plans array, provided every plan
entry parses (its format is one of the supported json/tasks/xplan),
exactly the completed plans in the parser's plan list whose index exceeds
lastPlanPrinted are emitted via handlePlan, each paired with its plan, in
increasing index order; the cursor is advanced to each emitted index in
turn, is never decremented, and across two successive
processServerResponseBody calls on the same reconciler (fresh cursor -1,
parser plan list growing by appending) each completed plan index is
reported exactly once.  (When an entry fails to parse the call raises and
emits nothing, leaving the cursor unchanged, as the counterexample above
shows.) -/
theorem async_emission_C1 (t c : ℤ) (r r2 : AsyncResponse) (P P2 : List Plan)
    (i : ℕ) (p : Plan)
    (hs : r.status = "STOPPED" ∨ r.status = "SEARCHING_BETTER_PLAN")
    (hp : 0 < r.plans.length)
    (hf : r.plans.findSome? planFormatError = none)
    (hs2 : r2.status = "STOPPED" ∨ r2.status = "SEARCHING_BETTER_PLAN")
    (hp2 : 0 < r2.plans.length)
    (hf2 : r2.plans.findSome? planFormatError = none)
    (hpre : P <+: P2) :
    (AEvent.planEmitted i p ∈ (asyncProcess t c r P).1 ↔
      c < (i : ℤ) ∧ i < P.length ∧ P.getD i [] = p) ∧
    emittedIndices (asyncProcess t c r P).1 =
      (List.range P.length).filter (fun (j : ℕ) => decide (c < (j : ℤ))) ∧
    (asyncProcess t c r P).2.1 = AOutcome.plans P ∧
    c ≤ (asyncProcess t c r P).2.2 ∧
    (asyncProcess t c r P).2.2 = cursorFold c (emittedIndices (asyncProcess t c r P).1) ∧
    emittedIndices (asyncProcess t (-1) r P).1 ++
        emittedIndices (asyncProcess t (asyncProcess t (-1) r P).2.2 r2 P2).1 =
      List.range P2.length := by
  refine ⟨mem_planEmitted_loop t c r P i p hs hp hf, ?_, asyncOutcome_loop t c r P hs hp hf,
    ?_, ?_, ?_⟩
  · rw [emittedIndices_loop t c r P hs hp hf, filter_range_eq_toNat_range]
  · rw [asyncCursor_loop t c r P hs hp hf]
    split <;> omega
  · rw [asyncCursor_loop t c r P hs hp hf, emittedIndices_loop t c r P hs hp hf]
    by_cases hsl : (c + 1).toNat < P.length
    · rw [if_pos hsl, cursorFold_range' _ _ _ (by omega)]
      omega
    · have hz : P.length - (c + 1).toNat = 0 := by omega
      rw [if_neg hsl, hz]
      rfl
  · have hlen : P.length ≤ P2.length := hpre.length_le
    rw [emittedIndices_loop t (-1) r P hs hp hf, asyncCursor_loop t (-1) r P hs hp hf,
      emittedIndices_loop t _ r2 P2 hs2 hp2 hf2]
    have hz : ((-1 : ℤ) + 1).toNat = 0 := rfl
    have hs2c : (((if 0 < P.length then ((P.length : ℤ) - 1) else -1)) +
        1).toNat = P.length := by
      split <;> omega
    rw [hz, hs2c, Nat.sub_zero]
    have hmid : List.range' P.length (P2.length - P.length) =
        List.range' (0 + 1 * P.length) (P2.length - P.length) := by
      rw [Nat.zero_add, Nat.one_mul]
    rw [hmid, List.range'_append]
    have hsum : P2.length - P.length + P.length = P2.length := by omega
    rw [hsum]
    exact (List.range_eq_range' _).symm

/-- Witness for C1: the theorem applied at a concrete STOPPED response with
one JSON plan entry, cursor -1, and parser plan lists [[]] and [[], []]. -/
theorem async_emission_C1_witness :
    ((stoppedResponseEx.status = "STOPPED" ∨
        stoppedResponseEx.status = "SEARCHING_BETTER_PLAN") ∧
      0 < stoppedResponseEx.plans.length ∧
      stoppedResponseEx.plans.findSome? planFormatError = none ∧
      [([] : Plan)] <+: [[], []]) ∧
    (asyncProcess 60 (-1) stoppedResponseEx [[]]).2.1 = AOutcome.plans [[]] ∧
    emittedIndices (asyncProcess 60 (-1) stoppedResponseEx [[]]).1 ++
        emittedIndices (asyncProcess 60 (asyncProcess 60 (-1) stoppedResponseEx [[]]).2.2
          stoppedResponseEx [[], []]).1 =
      List.range ([([] : Plan), []]).length :=
  ⟨⟨by decide, by decide, by decide, by decide⟩,
    (async_emission_C1 60 (-1) stoppedResponseEx stoppedResponseEx [[]] [[], []] 0 []
      (by decide) (by decide) (by decide) (by decide) (by decide) (by decide)
      (by decide)).2.2.1,
    (async_emission_C1 60 (-1) stoppedResponseEx stoppedResponseEx [[]] [[], []] 0 []
      (by decide) (by decide) (by decide) (by decide) (by decide) (by decide)
      (by decide)).2.2.2.2.2⟩

/-- Claim C10: lastPlanPrinted is instance-scoped, initialized to -1 at
construction, and never reset by plan(): a second plan() invocation on the
same PlannerAsyncService instance never emits via handlePlan any plan whose
parser-list index is at or below the cursor left by the earlier invocation,
although the returned plan list still contains every parser plan. -/
theorem async_cursor_C10 (a : String) (t : ℤ) (tr1 : Except String AsyncResponse)
    (r2 : AsyncResponse) (P1 P2 : List Plan) (i : ℕ) (p : Plan)
    (hs2 : r2.status = "STOPPED" ∨ r2.status = "SEARCHING_BETTER_PLAN")
    (hp2 : 0 < r2.plans.length)
    (hf2 : r2.plans.findSome? planFormatError = none) :
    asyncInitialCursor = -1 ∧
    (AEvent.planEmitted i p ∈
        (asyncPlanModel a t (asyncPlanModel a t asyncInitialCursor tr1 P1).2.2
          (.ok r2) P2).1 →
      (asyncPlanModel a t asyncInitialCursor tr1 P1).2.2 < (i : ℤ)) ∧
    (asyncPlanModel a t (asyncPlanModel a t asyncInitialCursor tr1 P1).2.2
        (.ok r2) P2).2.1 = AOutcome.plans P2 := by
  refine ⟨rfl, ?_, ?_⟩
  · intro hmem
    have hmem2 : AEvent.planEmitted i p ∈
        AEvent.out a :: (asyncProcess t (asyncPlanModel a t asyncInitialCursor tr1 P1).2.2
          r2 P2).1 := hmem
    rcases List.mem_cons.mp hmem2 with h | h
    · exact absurd h (by simp)
    · exact ((mem_planEmitted_loop t _ r2 P2 i p hs2 hp2 hf2).mp h).1
  · exact asyncOutcome_loop t _ r2 P2 hs2 hp2 hf2

/-- Witness for C10: a first invocation failing in transport, then a second
invocation with a concrete STOPPED response. -/
theorem async_cursor_C10_witness :
    ((stoppedResponseEx.status = "STOPPED" ∨
        stoppedResponseEx.status = "SEARCHING_BETTER_PLAN") ∧
      0 < stoppedResponseEx.plans.length ∧
      stoppedResponseEx.plans.findSome? planFormatError = none) ∧
    asyncInitialCursor = -1 ∧
    (asyncPlanModel "announce" 60
        (asyncPlanModel "announce" 60 asyncInitialCursor
          (.error "connect ECONNREFUSED") [[]]).2.2
        (.ok stoppedResponseEx) [[], []]).2.1 = AOutcome.plans [[], []] :=
  ⟨⟨by decide, by decide, by decide⟩,
    (async_cursor_C10 "announce" 60 (.error "connect ECONNREFUSED") stoppedResponseEx
      [[]] [[], []] 0 [] (by decide) (by decide) (by decide)).1,
    (async_cursor_C10 "announce" 60 (.error "connect ECONNREFUSED") stoppedResponseEx
      [[]] [[], []] 0 [] (by decide) (by decide) (by decide)).2.2⟩

theorem asyncOutcome_classify (t c : ℤ) (r : AsyncResponse) (P : List Plan) :
    (asyncProcess t c r P).2.1 =
      if r.status = "STOPPED" ∨ r.status = "SEARCHING_BETTER_PLAN" then
        if 0 < r.plans.length then
          match r.plans.findSome? planFormatError with
          | some msg => .err msg
          | none => .plans P
        else .plans []
      else if r.status = "FAILED" then .err r.errorMessage
      else if r.status = "NOT_INITIALIZED" ∨ r.status = "INITIATING" ∨
          r.status = "SEARCHING_INITIAL_PLAN" then
        .err ("After timeout " ++ toString t ++ " the status is " ++ r.status)
      else .err ("Planner service returned unexpected status: " ++ r.status ++ ".") := by
  unfold asyncProcess
  repeat' split
  all_goals rfl

/-- Claim C3 (amended): the async reconciler raises an error iff the status
is outside {STOPPED, SEARCHING_BETTER_PLAN} or some plan entry of a
non-empty plans array fails to parse (unsupported plan format); FAILED
raises with status.error.message, each initialization status raises the
timeout message naming the timeout and status, and any other status raises
the unexpected-status message. -/
theorem async_status_C3 (t c : ℤ) (r : AsyncResponse) (P : List Plan) :
    (isErrOutcome (asyncProcess t c r P).2.1 = true ↔
      (¬(r.status = "STOPPED" ∨ r.status = "SEARCHING_BETTER_PLAN") ∨
        (0 < r.plans.length ∧ (r.plans.findSome? planFormatError).isSome))) ∧
    (r.status = "FAILED" → (asyncProcess t c r P).2.1 = AOutcome.err r.errorMessage) ∧
    ((r.status = "NOT_INITIALIZED" ∨ r.status = "INITIATING" ∨
        r.status = "SEARCHING_INITIAL_PLAN") →
      (asyncProcess t c r P).2.1 =
        AOutcome.err ("After timeout " ++ toString t ++ " the status is " ++ r.status)) ∧
    (¬(r.status = "STOPPED" ∨ r.status = "SEARCHING_BETTER_PLAN") →
      r.status ≠ "FAILED" →
      ¬(r.status = "NOT_INITIALIZED" ∨ r.status = "INITIATING" ∨
        r.status = "SEARCHING_INITIAL_PLAN") →
      (asyncProcess t c r P).2.1 =
        AOutcome.err ("Planner service returned unexpected status: " ++ r.status ++ ".")) := by
  refine ⟨?_, ?_, ?_, ?_⟩
  · rw [asyncOutcome_classify]
    by_cases h1 : r.status = "STOPPED" ∨ r.status = "SEARCHING_BETTER_PLAN"
    · rw [if_pos h1]
      by_cases h2 : 0 < r.plans.length
      · rw [if_pos h2]
        cases hfs : r.plans.findSome? planFormatError with
        | none => simp [hfs, isErrOutcome, h1, h2]
        | some m => simp [hfs, isErrOutcome, h1, h2]
      · rw [if_neg h2]
        simp [isErrOutcome, h1, h2]
    · rw [if_neg h1]
      by_cases hF : r.status = "FAILED"
      · simp [hF, isErrOutcome, h1]
      · by_cases hI : r.status = "NOT_INITIALIZED" ∨ r.status = "INITIATING" ∨
            r.status = "SEARCHING_INITIAL_PLAN"
        · simp [hF, hI, isErrOutcome, h1]
        · simp [hF, hI, isErrOutcome, h1]
  · intro hF
    have h1 : ¬(r.status = "STOPPED" ∨ r.status = "SEARCHING_BETTER_PLAN") := by
      rw [hF]; decide
    rw [asyncOutcome_classify, if_neg h1, if_pos hF]
  · intro hI
    have h1 : ¬(r.status = "STOPPED" ∨ r.status = "SEARCHING_BETTER_PLAN") := by
      rcases hI with h | h | h <;> rw [h] <;> decide
    have hF : ¬(r.status = "FAILED") := by
      rcases hI with h | h | h <;> rw [h] <;> decide
    rw [asyncOutcome_classify, if_neg h1, if_neg hF, if_pos hI]
  · intro h1 hF hI
    rw [asyncOutcome_classify, if_neg h1, if_neg hF, if_neg hI]

/-- Counterexample to C3 as stated: a STOPPED response (a status inside the
allowed set) whose single plan entry carries the unsupported format "text"
still raises an error, refuting "raises an error if and only if the status
is not in {STOPPED, SEARCHING_BETTER_PLAN}". -/
theorem async_status_C3_cex :
    c3CexResponse.status = "STOPPED" ∧
    (asyncProcess 60 (-1) c3CexResponse []).2.1 =
      AOutcome.err "Unsupported plan format: text" ∧
    isErrOutcome (asyncProcess 60 (-1) c3CexResponse []).2.1 = true := by
  decide

/-- Witness for the amended C3: the FAILED and unexpected-status branches at
concrete responses. -/
theorem async_status_C3_witness :
    (isErrOutcome (asyncProcess 60 (-1)
        { status := "FAILED", reason := none, errorMessage := "planner crashed",
          plans := [], output := "" } []).2.1 = true ↔
      (¬((("FAILED" : String) = "STOPPED") ∨ (("FAILED" : String) = "SEARCHING_BETTER_PLAN")) ∨
        (0 < ([] : List AsyncResponsePlan).length ∧
          (([] : List AsyncResponsePlan).findSome? planFormatError).isSome))) ∧
    (asyncProcess 60 (-1)
        { status := "FAILED", reason := none, errorMessage := "planner crashed",
          plans := [], output := "" } []).2.1 = AOutcome.err "planner crashed" :=
  ⟨(async_status_C3 60 (-1)
      { status := "FAILED", reason := none, errorMessage := "planner crashed",
        plans := [], output := "" } []).1,
    (async_status_C3 60 (-1)
      { status := "FAILED", reason := none, errorMessage := "planner crashed",
        plans := [], output := "" } []).2.1 (by decide)⟩

/-- Claim C8: the unit-to-seconds table (SECOND 1, MILLISECOND 1/1000,
MINUTE 60, HOUR 3600, DAY 86400, WEEK 604800), factor 1 for an unrecognized
unit, and the async variant's default of hours (3600) for an unspecified
configured plan time unit. -/
theorem time_scale_C8 (u : String)
    (hu : u ∉ ["MINUTE", "MILLISECOND", "HOUR", "DAY", "WEEK"]) :
    toPlanTimeScale "SECOND" = 1 ∧
    toPlanTimeScale "MILLISECOND" = 1 / 1000 ∧
    toPlanTimeScale "MINUTE" = 60 ∧
    toPlanTimeScale "HOUR" = 3600 ∧
    toPlanTimeScale "DAY" = 86400 ∧
    toPlanTimeScale "WEEK" = 604800 ∧
    toPlanTimeScale u = 1 ∧
    asyncConfiguredPlanTimeScale none = 3600 ∧
    asyncConfiguredPlanTimeScale (some u) = toPlanTimeScale u := by
  simp only [List.mem_cons, List.not_mem_nil, or_false, not_or] at hu
  obtain ⟨h1, h2, h3, h4, h5⟩ := hu
  refine ⟨?_, ?_, ?_, ?_, ?_, ?_, ?_, ?_, rfl⟩
  · simp only [toPlanTimeScale, String.reduceEq, reduceIte]
  · simp only [toPlanTimeScale, String.reduceEq, reduceIte]
  · simp only [toPlanTimeScale, String.reduceEq, reduceIte]
  · simp only [toPlanTimeScale, String.reduceEq, reduceIte]
    norm_num
  · simp only [toPlanTimeScale, String.reduceEq, reduceIte]
    norm_num
  · simp only [toPlanTimeScale, String.reduceEq, reduceIte]
    norm_num
  · simp only [toPlanTimeScale, if_neg h1, if_neg h2, if_neg h3, if_neg h4, if_neg h5]
  · simp only [asyncConfiguredPlanTimeScale, DEFAULT_PLAN_TIME_UNIT_HOUR, Option.getD,
      toPlanTimeScale, String.reduceEq, reduceIte]
    norm_num

/-- Witness for C8 at the unrecognized unit "FORTNIGHT". -/
theorem time_scale_C8_witness :
    (("FORTNIGHT" : String) ∉ ["MINUTE", "MILLISECOND", "HOUR", "DAY", "WEEK"]) ∧
    toPlanTimeScale "FORTNIGHT" = 1 ∧
    asyncConfiguredPlanTimeScale none = 3600 :=
  ⟨by decide,
    (time_scale_C8 "FORTNIGHT" (by decide)).2.2.2.2.2.2.1,
    (time_scale_C8 "FORTNIGHT" (by decide)).2.2.2.2.2.2.2.1⟩

/-- Counterexample to C2 as stated: for the step name "x(y)" the code removes
the first "(" and the first ")", producing "xy", which differs from the name
with its outer parentheses stripped (this name has no outer parentheses and
would be left unchanged). -/
theorem plan_step_C2_cex :
    (convertPlanSteps [{ name := "x(y)", time := none, duration := none }] 1).map
        PlanStep.fullActionName = ["xy"] ∧
    stripOuterParens "x(y)" = "x(y)" ∧
    ("xy" : String) ≠ "x(y)" := by
  refine ⟨?_, by decide, by decide⟩
  simp [convertPlanSteps, mkConvertedStep, List.enum]
  decide

/-- Claim C2 (amended): the normalized step at position i takes the entry's
name with the first "(" and the first ")" removed (which strips the outer
parentheses of a name of the form "(action ...)"), the explicit time or
else (i+1) x epsilon, durative exactly when a non-null duration is present,
the explicit duration or else epsilon, and order index i; in particular the
3-step example with epsilon = 1/2 yields times 1/2, 1, 3/2, each step
non-durative with duration 1/2. -/
theorem plan_step_C2 (steps : List JsonPlanStep) (epsilon : ℚ) (i : ℕ) (s : JsonPlanStep)
    (hi : steps[i]? = some s) :
    (convertPlanSteps steps epsilon).length = steps.length ∧
    ((convertPlanSteps steps epsilon)[i]?).map PlanStep.fullActionName =
      some (jsStripParens s.name) ∧
    ((convertPlanSteps steps epsilon)[i]?).map PlanStep.time =
      some (match s.time with | some t => t | none => (i + 1 : ℚ) * epsilon) ∧
    (((convertPlanSteps steps epsilon)[i]?).map PlanStep.isDurative = some true ↔
      s.duration ≠ none) ∧
    ((convertPlanSteps steps epsilon)[i]?).map PlanStep.duration =
      some (match s.duration with | some d => d | none => epsilon) ∧
    ((convertPlanSteps steps epsilon)[i]?).map PlanStep.orderIndex = some i ∧
    convertPlanSteps
        [{ name := "(a)", time := none, duration := none },
         { name := "(b)", time := none, duration := none },
         { name := "(c)", time := none, duration := none }] (1 / 2) =
      [{ time := 1/2, fullActionName := "a", isDurative := false, duration := 1/2,
         orderIndex := 0 },
       { time := 1, fullActionName := "b", isDurative := false, duration := 1/2,
         orderIndex := 1 },
       { time := 3/2, fullActionName := "c", isDurative := false, duration := 1/2,
         orderIndex := 2 }] := by
  have hidx : (convertPlanSteps steps epsilon)[i]? = some (mkConvertedStep epsilon i s) := by
    rw [convertPlanSteps, List.getElem?_map, List.getElem?_enum, hi]
    rfl
  refine ⟨by simp [convertPlanSteps], ?_, ?_, ?_, ?_, ?_, ?_⟩
  · rw [hidx]; rfl
  · rw [hidx]
    cases ht : s.time <;> simp [mkConvertedStep, ht]
  · rw [hidx]
    cases hd : s.duration <;> simp [mkConvertedStep, hd]
  · rw [hidx]
    cases hd : s.duration <;> simp [mkConvertedStep, hd]
  · rw [hidx]; rfl
  · norm_num [convertPlanSteps, mkConvertedStep, jsStripParens, removeFirstChar, List.enum]
    decide

/-- Witness for the amended C2 at the first entry of the 3-step example with
epsilon = 1/2. -/
theorem plan_step_C2_witness :
    ([{ name := "(a)", time := none, duration := none },
      { name := "(b)", time := none, duration := none },
      { name := "(c)", time := none, duration := none }] :
        List JsonPlanStep)[0]? = some { name := "(a)", time := none, duration := none } ∧
    ((convertPlanSteps
        [{ name := "(a)", time := none, duration := none },
         { name := "(b)", time := none, duration := none },
         { name := "(c)", time := none, duration := none }] (1 / 2))[0]?).map
      PlanStep.fullActionName = some (jsStripParens "(a)") :=
  ⟨by decide,
    (plan_step_C2
      [{ name := "(a)", time := none, duration := none },
       { name := "(b)", time := none, duration := none },
       { name := "(c)", time := none, duration := none }] (1 / 2) 0
      { name := "(a)", time := none, duration := none } (by decide)).2.1⟩

/-- Counterexample to C4 as stated: a status "error" response whose result
carries output but no error field is rejected (a raised error), not
resolved with an empty plan list. -/
theorem sync_error_C4_cex :
    (syncProcess 1 c4CexResponse).2 =
      SOutcome.rejected
        ("An error occurred while solving the planning problem: " ++
          syncResultStringify outputOnlyResult) ∧
    isResolvedOutcome (syncProcess 1 c4CexResponse).2 = false := by
  decide

/-- Claim C4 (amended): for a sync response with status "error" whose result
is present and carries a truthy error field, the reconciler emits
result.output when non-empty and result.error via handleOutput and resolves
with an empty plan list; in particular the "domain unsolvable" example
yields an empty plan list and exactly one handleOutput call containing
"domain unsolvable". -/
theorem sync_error_C4 (epsilon : ℚ) (b : SyncResponse) (res : SyncResult)
    (hs : b.status = some "error") (hr : b.result = some res)
    (he : truthyStr res.error = true) :
    syncProcess epsilon b =
      ((if truthyStr res.output then [SEvent.out (res.output.getD "")] else []) ++
        [SEvent.out (res.error.getD "")], SOutcome.resolved []) ∧
    syncProcess epsilon domUnsolvableResponse =
      ([SEvent.out "domain unsolvable"], SOutcome.resolved []) := by
  constructor
  · unfold syncProcess
    rw [if_pos hs, hr]
    simp [he]
  · unfold syncProcess
    simp [domUnsolvableResponse, domUnsolvableResult, truthyStr]

/-- Witness for the amended C4 at the "domain unsolvable" example. -/
theorem sync_error_C4_witness :
    domUnsolvableResponse.status = some "error" ∧
    domUnsolvableResponse.result = some domUnsolvableResult ∧
    truthyStr domUnsolvableResult.error = true ∧
    syncProcess 1 domUnsolvableResponse =
      ([SEvent.out "domain unsolvable"], SOutcome.resolved []) :=
  ⟨rfl, rfl, by decide,
    (sync_error_C4 1 domUnsolvableResponse domUnsolvableResult rfl rfl (by decide)).2⟩

/-- Claim C9: a sync response with status "ok" but no result field terminates
with a raised error (the same raised-fatal outcome as an unrecognized
status, which rejects naming the unexpected status), and never resolves
with a plan list. -/
theorem sync_ok_missing_result_C9 (epsilon : ℚ) (b b2 : SyncResponse) (s2 : String)
    (h1 : b.status = some "ok") (h2 : b.result = none)
    (h3 : b2.status = some s2) (h4 : s2 ≠ "ok") (h5 : s2 ≠ "error") :
    isErrorRaised (syncProcess epsilon b).2 = true ∧
    isResolvedOutcome (syncProcess epsilon b).2 = false ∧
    (syncProcess epsilon b).2 = SOutcome.thrown (undefinedFieldError "output") ∧
    isErrorRaised (syncProcess epsilon b2).2 = true ∧
    isResolvedOutcome (syncProcess epsilon b2).2 = false ∧
    (syncProcess epsilon b2).2 =
      SOutcome.rejected ("Planner service failed with status " ++ s2 ++ ".") := by
  have hb : syncProcess epsilon b = ([], .thrown (undefinedFieldError "output")) := by
    unfold syncProcess
    rw [h1, h2]
    simp [String.reduceEq]
  have hb2 : syncProcess epsilon b2 =
      ([], .rejected ("Planner service failed with status " ++ s2 ++ ".")) := by
    unfold syncProcess
    rw [h3]
    simp [h4, h5]
  rw [hb, hb2]
  exact ⟨rfl, rfl, rfl, rfl, rfl, rfl⟩

/-- Witness for C9: an "ok" response with no result and a response with the
unrecognized status "weird". -/
theorem sync_ok_missing_result_C9_witness :
    (("weird" : String) ≠ "ok") ∧
    isErrorRaised (syncProcess 1 okNoResultResponse).2 = true ∧
    isErrorRaised (syncProcess 1 weirdResponse).2 = true :=
  ⟨by decide,
    (sync_ok_missing_result_C9 1 okNoResultResponse weirdResponse "weird" rfl rfl rfl
      (by decide) (by decide)).1,
    (sync_ok_missing_result_C9 1 okNoResultResponse weirdResponse "weird" rfl rfl rfl
      (by decide) (by decide)).2.2.2.1⟩

theorem packPreEvents_no_plan (r : Option PackResult) :
    hasPackPlanEmitted (packPreEvents r) = false := by
  rcases r with _ | pr
  · rfl
  rcases pr with s | o
  · rfl
  · simp only [packPreEvents, hasPackPlanEmitted, List.any_append, Bool.or_eq_false_iff]
    refine ⟨⟨?_, ?_⟩, ?_⟩ <;> (repeat' split) <;> rfl

theorem nonTerminal_step (url : String) (b : PackagedResponse)
    (h : nonTerminal b = true) :
    ∃ d u, packProcessStep url b = (packPreEvents b.result, PackStepRes.poll d u) := by
  unfold nonTerminal at h
  rw [Bool.or_eq_true] at h
  rcases h with h | h
  · have hp : b.status = some "PENDING" := by
      exact eq_of_beq h
    refine ⟨500, url, ?_⟩
    unfold packProcessStep
    rw [if_pos hp]
  · simp only [Bool.and_eq_true, beq_iff_eq, Bool.not_eq_true'] at h
    obtain ⟨⟨hn, he⟩, hu⟩ := h
    obtain ⟨s, hres⟩ : ∃ s, b.result = some (.url s) := by
      rcases hb : b.result with _ | pr
      · rw [hb] at hu; simp [isUrlResult] at hu
      rcases pr with s | o
      · exact ⟨s, rfl⟩
      · rw [hb] at hu; simp [isUrlResult] at hu
    refine ⟨0, resolveUrl s url, ?_⟩
    unfold packProcessStep
    rw [if_neg (by rw [hn]; decide), if_neg ?hne, if_pos hn, hres]
    case hne =>
      rw [hn, he]
      decide

theorem hasPackPlanEmitted_append (l1 l2 : List PackEvent) :
    hasPackPlanEmitted (l1 ++ l2) = (hasPackPlanEmitted l1 || hasPackPlanEmitted l2) := by
  simp [hasPackPlanEmitted, List.any_append]

theorem packDrive_nonTerminal (rs : List PackagedResponse) :
    ∀ url2 : String, rs.all nonTerminal = true →
      hasPackPlanEmitted (packDriveList url2 rs).1 = false ∧
      (packDriveList url2 rs).2 = none := by
  induction rs with
  | nil => intro url2 h; exact ⟨rfl, rfl⟩
  | cons b rest ih =>
    intro url2 hall
    rw [List.all_cons, Bool.and_eq_true] at hall
    obtain ⟨hb, hrest⟩ := hall
    obtain ⟨d, u, hstep⟩ := nonTerminal_step url2 b hb
    have hdrive : packDriveList url2 (b :: rest) =
        (packPreEvents b.result ++ (packDriveList u rest).1, (packDriveList u rest).2) := by
      simp only [packDriveList, hstep]
    obtain ⟨ih1, ih2⟩ := ih u hrest
    rw [hdrive]
    constructor
    · rw [hasPackPlanEmitted_append, packPreEvents_no_plan, ih1]
      rfl
    · exact ih2

/-- Counterexample to C5 as stated: processing a PENDING response whose
result is the URL string "http://other/check" against the original request
URL "http://svc/solve" re-polls the original request URL itself, not the
result URL resolved against the original request URL. -/
theorem pack_pending_C5_cex :
    packProcessStep "http://svc/solve" pendingUrlResponse =
      ([], PackStepRes.poll 500 "http://svc/solve") ∧
    resolveUrl "http://other/check" "http://svc/solve" = "http://other/check" ∧
    ("http://svc/solve" : String) ≠ "http://other/check" := by
  decide

/-- Claim C5 (amended): a packaged PENDING response whose result is a string
URL triggers exactly one delayed (500 ms) re-poll against the original
request URL itself — the PENDING branch ignores the result string, and
resolution against the original URL happens only in the no-status callback
branch — recursing into the same reconciliation logic; and as long as the
successive poll responses remain non-terminal, no handlePlan is emitted and
no terminal outcome is produced. -/
theorem pack_pending_C5 (origUrl u url2 : String) (b : PackagedResponse)
    (rs : List PackagedResponse)
    (hp : b.status = some "PENDING") (hr : b.result = some (.url u))
    (hall : rs.all nonTerminal = true) :
    packProcessStep origUrl b = ([], PackStepRes.poll 500 origUrl) ∧
    hasPackPlanEmitted (packDriveList url2 rs).1 = false ∧
    (packDriveList url2 rs).2 = none := by
  refine ⟨?_, (packDrive_nonTerminal rs url2 hall).1, (packDrive_nonTerminal rs url2 hall).2⟩
  unfold packProcessStep
  rw [if_pos hp, hr]
  rfl

/-- Witness for the amended C5: a PENDING response with a URL result, and a
single-element non-terminal poll trace that ends still pending. -/
theorem pack_pending_C5_witness :
    pendingUrlResponse.status = some "PENDING" ∧
    pendingUrlResponse.result = some (PackResult.url "http://other/check") ∧
    ([pendingUrlResponse].all nonTerminal = true) ∧
    packProcessStep "http://svc/solve" pendingUrlResponse =
      ([], PackStepRes.poll 500 "http://svc/solve") ∧
    hasPackPlanEmitted (packDriveList "http://svc/solve" [pendingUrlResponse]).1 = false :=
  ⟨rfl, rfl, by decide,
    (pack_pending_C5 "http://svc/solve" "http://other/check" "http://svc/solve"
      pendingUrlResponse [pendingUrlResponse] rfl rfl (by decide)).1,
    (pack_pending_C5 "http://svc/solve" "http://other/check" "http://svc/solve"
      pendingUrlResponse [pendingUrlResponse] rfl rfl (by decide)).2.1⟩

/-- Counterexample to C6 as stated: a response with no status and no result
whose top-level key "plan" holds plan text nevertheless raises the Error
field's message (the Error branch runs before the bare-plan fallback), so
no plan buffer is appended and no plan list is returned. -/
theorem pack_fallback_C6_cex :
    c6CexResponse.status = none ∧
    c6CexResponse.result = none ∧
    (c6CexResponse.extra.any fun kv => strContains kv.1 "plan") = true ∧
    packProcessStep "http://svc/solve" c6CexResponse =
      ([], PackStepRes.err "Missing mandatory argument") := by
  decide

/-- Claim C6 (amended): for a packaged response with no status field and no
truthy top-level Error field, (a) when the result field is also absent and
some top-level key contains "plan", each such key's text is appended to
the parser as a finalized plan buffer and exactly the plans thereby parsed
are returned, and (b) when the result field is present but not a string, a
fatal error is raised. -/
theorem pack_fallback_C6 (origUrl : String) (b : PackagedResponse)
    (hs : b.status = none) (he : truthyStr b.errorField = false) :
    (b.result = none → (b.extra.any fun kv => strContains kv.1 "plan") = true →
      (packProcessStep origUrl b).2 =
        PackStepRes.ret ((b.extra.filter (fun kv => strContains kv.1 "plan")).map
          (fun kv => kv.2))) ∧
    (isObjResult b.result = true →
      (packProcessStep origUrl b).2 =
        PackStepRes.err "Element 'result should be a /check... url.") := by
  have hnp : ¬ (b.status = some "PENDING") := by rw [hs]; simp
  have hne : ¬ (b.status = some "error" ∨ truthyStr b.errorField = true) := by
    rw [hs, he]; simp
  constructor
  · intro hr hany
    unfold packProcessStep
    rw [if_neg hnp, if_neg hne, if_pos hs, hr]
    simp only [hany, if_pos]
    rcases hplans : (b.extra.filter (fun kv => strContains kv.1 "plan")).map
        (fun kv => kv.2) with _ | ⟨p, ps⟩ <;> rw [hplans]
  · intro hobj
    obtain ⟨ro, hres⟩ : ∃ ro, b.result = some (.obj ro) := by
      rcases hb : b.result with _ | pr
      · rw [hb] at hobj; simp [isObjResult] at hobj
      rcases pr with s | o
      · rw [hb] at hobj; simp [isObjResult] at hobj
      · exact ⟨o, rfl⟩
    unfold packProcessStep
    rw [if_neg hnp, if_neg hne, if_pos hs, hres]

/-- Witness for the amended C6 at a concrete bare-plan response. -/
theorem pack_fallback_C6_witness :
    barePlanResponse.status = none ∧
    truthyStr barePlanResponse.errorField = false ∧
    barePlanResponse.result = none ∧
    (barePlanResponse.extra.any fun kv => strContains kv.1 "plan") = true ∧
    (packProcessStep "http://svc/solve" barePlanResponse).2 =
      PackStepRes.ret ["(a b)"] :=
  ⟨rfl, rfl, rfl, by decide,
    (pack_fallback_C6 "http://svc/solve" barePlanResponse rfl rfl).1 rfl (by decide)⟩

theorem charsStartWith_append (p t : List Char) : charsStartWith p (p ++ t) = true := by
  induction p with
  | nil => rfl
  | cons c cs ih => simp [charsStartWith, ih]

theorem charsContains_append_left (pat rest : List Char) (h : pat ≠ []) :
    charsContains pat (pat ++ rest) = true := by
  cases pat with
  | nil => exact absurd rfl h
  | cons c cs =>
    show (charsStartWith (c :: cs) ((c :: cs) ++ rest) || _) = true
    rw [charsStartWith_append]
    rfl

/-- Counterexample to C7 as stated: a GET poll (getJson) response with the
status code 203 — greater than 202 — and a JSON content-type is accepted
and processed rather than rejected (getJson only rejects codes of 300 and
above). -/
theorem http_classify_C7_cex :
    getJsonClassify "http://svc/check"
      { statusCode := 203, statusMessage := "Non-Authoritative Information",
        contentType := some "application/json" } = none ∧
    202 < 203 := by
  decide

/-- Claim C7 (amended): POST responses (postJson) with status above 202
always raise — 400 is remapped to the authentication-failed message and 401
to a message containing "Invalid token" under an authenticated
configuration — and an accepted json-mode POST response must carry a
content-type starting with application/json; GET polls (getJson) instead
raise for status 300 and above (with no authentication remapping) and for
a non-JSON content-type; and a transport failure never invokes
handlePlan. -/
theorem http_classify_C7 (auth : Bool) (fromName url a m : String) (t c : ℤ)
    (P : List Plan) (res : HttpResponseMeta) :
    (202 < res.statusCode → (postJsonClassify auth true fromName url res).isSome = true) ∧
    (auth = true → res.statusCode = 400 →
      postJsonClassify auth true fromName url res =
        some ("Authentication failed. Please login or update tokens. (" ++ fromName ++ ")")) ∧
    (auth = true → res.statusCode = 401 →
      postJsonClassify auth true fromName url res =
        some ("Invalid token. Please update tokens. (" ++ fromName ++ ")")) ∧
    (auth = true → res.statusCode = 401 →
      strContains ((postJsonClassify auth true fromName url res).getD "")
        "Invalid token" = true) ∧
    (res.statusCode ≤ 202 → contentTypeIsJson res.contentType = false →
      (postJsonClassify auth true fromName url res).isSome = true) ∧
    (300 ≤ res.statusCode → (getJsonClassify url res).isSome = true) ∧
    (res.statusCode < 300 → contentTypeIsJson res.contentType = false →
      (getJsonClassify url res).isSome = true) ∧
    hasPlanEmittedA (asyncPlanModel a t c (.error m) P).1 = false := by
  have h401 : auth = true → res.statusCode = 401 →
      postJsonClassify auth true fromName url res =
        some ("Invalid token. Please update tokens. (" ++ fromName ++ ")") := by
    intro ha hc
    have h202 : 202 < res.statusCode := by omega
    simp [postJsonClassify, ha, hc]
  refine ⟨?_, ?_, h401, ?_, ?_, ?_, ?_, rfl⟩
  · intro h
    simp [postJsonClassify, if_pos h]
  · intro ha hc
    simp [postJsonClassify, ha, hc]
  · intro ha hc
    rw [h401 ha hc]
    show strContains ("Invalid token. Please update tokens. (" ++ fromName ++ ")")
      "Invalid token" = true
    unfold strContains
    have hdata : ("Invalid token. Please update tokens. (" ++ fromName ++ ")").data =
        "Invalid token".data ++
          (". Please update tokens. (".data ++ (fromName.data ++ ")".data)) := by
      simp [String.data_append]
    rw [hdata]
    exact charsContains_append_left _ _ (by decide)
  · intro h1 h2
    have hn : ¬ (202 < res.statusCode) := by omega
    simp [postJsonClassify, hn, h2]
  · intro h
    simp [getJsonClassify, if_pos h]
  · intro h1 h2
    have hn : ¬ (300 ≤ res.statusCode) := by omega
    simp [getJsonClassify, hn, h2]

/-- Witness for the amended C7: a 401 POST response under an authenticated
configuration, evaluated against the claim's message properties. -/
theorem http_classify_C7_witness :
    ((true : Bool) = true) ∧
    ((401 : ℕ) = 401) ∧
    strContains ((postJsonClassify true true "PDDL Planning Service" "http://svc/solve"
        { statusCode := 401, statusMessage := "Unauthorized",
          contentType := some "text/html" }).getD "") "Invalid token" = true ∧
    hasPlanEmittedA (asyncPlanModel "announce" 60 (-1)
        (.error "connect ECONNREFUSED") [[]]).1 = false :=
  ⟨rfl, rfl,
    (http_classify_C7 true "PDDL Planning Service" "http://svc/solve" "announce"
      "connect ECONNREFUSED" 60 (-1) [[]]
      { statusCode := 401, statusMessage := "Unauthorized",
        contentType := some "text/html" }).2.2.2.1 rfl rfl,
    (http_classify_C7 true "PDDL Planning Service" "http://svc/solve" "announce"
      "connect ECONNREFUSED" 60 (-1) [[]]
      { statusCode := 401, statusMessage := "Unauthorized",
        contentType := some "text/html" }).2.2.2.2.2.2.2⟩
